import Mathlib

/-!
Shallow embedding of the two Ansible CloudStack modules of this repository,
`cs_domain.py` and `cs_iso.py`.  Both files carry an identical common class
`AnsibleCloudStack` (entity lookups, tag reconciliation, change detection)
plus a module class (`AnsibleCloudStackDomain`, `AnsibleCloudStackIso`).

The embedding models one module invocation as a state machine: the state `St`
holds the per-invocation entity cache (the `self.domain` / `self.account` /
... fields), the `changed` flag of `self.result`, and the ordered list of
remote API calls issued so far.  Each Python method becomes a function
`... -> St -> Step A`; `Step` is the outcome of a step: normal return, or
abort (`module.fail_json` or an uncaught Python exception), both carrying the
state reached so far, so that the call trace up to a failure stays visible.

The remote CloudStack side is modelled by an immutable `Remote` record of the
entities the listing calls would return.  Responses to listing calls are
modelled as the natural server-side filters; mutating calls are recorded in
the trace.  All checked at the bottom against the claims C1 to C10.
-/

namespace CsAcs

/-- A key/value tag record, as carried in module parameters (a list of dicts
with keys `key` and `value`) and in API responses. -/
structure Tag where
  key : String
  value : String
deriving DecidableEq, Repr

/-- The Python values that meet in the membership test of `_delete_tags`:
the source evaluates `existing_tag["key"] in tags` where `tags` is the list
of desired tag dicts, so a string is compared against whole tag records. -/
inductive PyTagV where
  | vstr (s : String)
  | vtag (t : Tag)
deriving DecidableEq, Repr

/-- Python equality between such values: a string never equals a dict. -/
def pyTagVEq : PyTagV → PyTagV → Bool
  | .vstr a, .vstr b => a == b
  | .vtag a, .vtag b => a == b
  | _, _ => false

/-- Python `x in l` for these values. -/
def pyMem (x : PyTagV) (l : List PyTagV) : Bool :=
  l.any (fun y => pyTagVEq x y)

/-!
String helpers.  The sources only ever apply `lower` / `startswith` /
`endswith` / `split` / `strip` / `int(...)` to ASCII selector strings, so
these are modelled by structurally recursive functions on the character
list (the built-in `String` versions are not kernel-reducible here).
-/

/-- Python `s.lower()` (ASCII). -/
def pyLower (s : String) : String := String.mk (s.data.map Char.toLower)

/-- Is `pre` a leading segment of `s` (character lists)? -/
def pyStartsAux : List Char → List Char → Bool
  | _, [] => true
  | [], _ :: _ => false
  | a :: as, b :: bs => a == b && pyStartsAux as bs

/-- Python `s.startswith(pre)`. -/
def pyStartsWith (s pre : String) : Bool := pyStartsAux s.data pre.data

/-- Python `s.endswith(suf)`. -/
def pyEndsWith (s suf : String) : Bool := pyStartsAux s.data.reverse suf.data.reverse

/-- Python `s.split(sep)` for a one-character separator, on character
lists. -/
def splitOnChar (sep : Char) : List Char → List (List Char)
  | [] => [[]]
  | c :: cs =>
    match splitOnChar sep cs with
    | [] => [[]]
    | g :: gs => if c == sep then [] :: g :: gs else (c :: g) :: gs

/-- Python `s.split("/")`. -/
def pySplitSlash (s : String) : List String :=
  (splitOnChar '/' s.data).map (fun l => String.mk l)

/-- Python `"/".join(parts)`. -/
def joinSlash : List String → String
  | [] => ""
  | [x] => x
  | x :: xs => x ++ "/" ++ joinSlash xs

/-- Python `s.strip()`. -/
def pyStrip (s : String) : String :=
  String.mk (((s.data.dropWhile Char.isWhitespace).reverse.dropWhile
    Char.isWhitespace).reverse)

/-- Decimal digit run to a number; `none` on a non-digit or an empty run. -/
def pyParseNatAux (acc : Nat) : List Char → Option Nat
  | [] => some acc
  | c :: cs => if c.isDigit then pyParseNatAux (acc * 10 + (c.toNat - 48)) cs else none

/-- Parse a nonempty run of decimal digits. -/
def pyParseNat : List Char → Option Nat
  | [] => none
  | l => pyParseNatAux 0 l

/-- Python values met by `has_changed`: module parameters and API response
fields are ints or strings there. -/
inductive PyVal where
  | pint (n : Int)
  | pstr (s : String)
deriving DecidableEq, Repr

/-- Python `int(s)` on a string: optional surrounding whitespace, optional
sign, decimal digits; anything else raises ValueError (modelled as `none`). -/
def pyStrToInt (s : String) : Option Int :=
  match (pyStrip s).data with
  | [] => none
  | c :: cs =>
    if c == '-' then (pyParseNat cs).map (fun n => -(n : Int))
    else if c == '+' then (pyParseNat cs).map (fun n => (n : Int))
    else (pyParseNat (c :: cs)).map (fun n => (n : Int))

/-- Python `str(v)`. -/
def pyToStr : PyVal → String
  | .pint n => toString n
  | .pstr s => s

/-- How a module invocation aborts: `module.fail_json` with a message, or an
uncaught Python exception (TypeError / NameError / KeyError / ValueError). -/
inductive Fail where
  | failJson (msg : String)
  | pyError (msg : String)
deriving DecidableEq, Repr

/-- Python `int(v)`: identity on ints, parse on strings (ValueError on a
non-numeric string). -/
def pyToInt (v : PyVal) : Except Fail Int :=
  match v with
  | .pint n => .ok n
  | .pstr s =>
    match pyStrToInt s with
    | some n => .ok n
    | none => .error (.pyError "ValueError: invalid literal for int")

/-- Dictionary lookup on the association-list model of a response dict. -/
def lookupPy (k : String) (current : List (String × PyVal)) : Option PyVal :=
  match current.find? (fun e => e.1 == k) with
  | some e => some e.2
  | none => none

/-- The `only_keys` filter of `has_changed`: Python tests
`if only_keys and key not in only_keys`, so `None` and the empty list both
disable filtering. -/
def keyBlocked (only_keys : Option (List String)) (k : String) : Bool :=
  match only_keys with
  | none => false
  | some ks => !ks.isEmpty && !(ks.contains k)

/-- `AnsibleCloudStack.has_changed(want_dict, current_dict, only_keys)`.
Entries with value `None` are skipped; keys absent from `current_dict` are
skipped; when the wanted value is an int the current value is coerced with
`int(...)` (ValueError propagates), when it is a string the current value is
coerced with `str(...)`; the first differing entry returns `True`. -/
def hasChanged (want : List (String × Option PyVal)) (current : List (String × PyVal))
    (only_keys : Option (List String)) : Except Fail Bool :=
  match want with
  | [] => .ok false
  | (k, v?) :: rest =>
    if keyBlocked only_keys k then hasChanged rest current only_keys
    else
      match v? with
      | none => hasChanged rest current only_keys
      | some v =>
        match lookupPy k current with
        | none => hasChanged rest current only_keys
        | some cur =>
          match v with
          | .pint n =>
            match pyToInt cur with
            | .error e => .error e
            | .ok m => if n == m then hasChanged rest current only_keys else .ok true
          | .pstr strv =>
            if strv == pyToStr cur then hasChanged rest current only_keys else .ok true

/-- A zone record as returned by `listZones`. -/
structure Zone where
  name : String
  id : String
deriving DecidableEq, Repr

/-- An account record as returned by `listAccounts`. -/
structure Account where
  name : String
  id : String
deriving DecidableEq, Repr

/-- A project record as returned by `listProjects`. -/
structure Project where
  name : String
  id : String
deriving DecidableEq, Repr

/-- An OS type record as returned by `listOsTypes`. -/
structure OsType where
  description : String
  id : String
deriving DecidableEq, Repr

/-- An ISO record as returned by `listIsos` (the fields the modules read). -/
structure Iso where
  id : String
  name : String
  checksum : String
deriving DecidableEq, Repr

/-- A domain record as returned by `listDomains` (the fields the modules
read); optional fields model keys that may be absent from the response. -/
structure DomainRec where
  id : String
  name : String
  path : String
  networkdomain : Option String
  parentdomainname : Option String
  state : Option String
deriving DecidableEq, Repr

/-- The filter parameters `cs_iso.get_iso` sends to `listIsos`; `none` models
a key that is absent from the args dict. -/
structure IsoListArgs where
  isready : Bool
  isofilter : String
  domainid : Option String
  account : Option String
  projectid : Option String
  zoneid : String
  name : Option String
deriving DecidableEq, Repr

/-- The parameters `cs_iso.register_iso` sends to `registerIso`.  The module
reads `is_public` from the parameters but never declares it in its argument
spec, so `ispublic` is always `none`. -/
structure RegisterIsoArgs where
  zoneid : String
  domainid : Option String
  account : Option String
  projectid : Option String
  bootable : Bool
  ostypeid : Option String
  name : String
  displaytext : String
  checksum : Option String
  isdynamicallyscalable : Bool
  isfeatured : Bool
  ispublic : Option Bool
  url : String
deriving DecidableEq, Repr

/-- One remote API request, with the parameters the claims talk about. -/
inductive Call where
  | listZones
  | listDomains
  | listAccounts (name : String) (domainid : Option String)
  | listProjects (account : Option String) (domainid : Option String)
  | listOsTypes
  | listIsos (args : IsoListArgs)
  | listTags (resourceid : String)
  | registerIso (args : RegisterIsoArgs)
  | deleteIso (id : String) (projectid : Option String) (zoneid : String)
  | createDomain
  | updateDomain (id : String) (networkdomain : Option String)
  | deleteDomain (id : String)
  | deleteTags (resourceids : String) (resourcetype : String) (tags : List Tag)
  | createTags (resourceids : String) (resourcetype : String) (tags : List Tag)
  | queryAsyncJobResult (jobid : String)
deriving DecidableEq, Repr

/-- Whether a call mutates remote state (create/update/delete/tag writes);
the list and job-status queries are read-only. -/
def Call.isMutating : Call → Bool
  | .registerIso _ => true
  | .deleteIso _ _ _ => true
  | .createDomain => true
  | .updateDomain _ _ => true
  | .deleteDomain _ => true
  | .deleteTags _ _ _ => true
  | .createTags _ _ _ => true
  | _ => false

/-- The remote CloudStack state visible through the listing calls.
`tagStore` maps a resource id to its current tags (for `listTags`). -/
structure Remote where
  zones : List Zone
  domains : List DomainRec
  accounts : List Account
  projects : List Project
  ostypes : List OsType
  isos : List Iso
  tagStore : List (String × List Tag)
deriving DecidableEq, Repr

/-- The per-invocation entity cache: the `self.domain`, `self.account`, ...
fields of `AnsibleCloudStack` (plus `self.iso` of the ISO module). -/
structure Cache where
  zone : Option Zone
  domain : Option DomainRec
  account : Option Account
  project : Option Project
  osType : Option OsType
  iso : Option Iso
deriving DecidableEq, Repr

/-- All cache fields start as `None` in `__init__`. -/
def Cache.empty : Cache :=
  { zone := none, domain := none, account := none, project := none,
    osType := none, iso := none }

/-- Mutable invocation state: cache, the `changed` flag of `self.result`,
and the ordered trace of remote calls issued so far. -/
structure St where
  cache : Cache
  changed : Bool
  calls : List Call
deriving DecidableEq, Repr

/-- Invocation state at the start of `main`. -/
def St.init : St :=
  { cache := Cache.empty, changed := false, calls := [] }

/-- Record one remote API request. -/
def St.emit (s : St) (c : Call) : St :=
  { s with calls := s.calls ++ [c] }

/-- `self.result["changed"] = True`. -/
def St.mark (s : St) : St :=
  { s with changed := true }

/-- Outcome of one step of the invocation: a value plus the updated state, or
an abort (fail_json / uncaught exception) with the state reached so far. -/
inductive Step (α : Type) where
  | ok (a : α) (s : St)
  | fail (e : Fail) (s : St)
deriving Repr, DecidableEq

/-- Sequencing: an abort short-circuits the rest of the invocation. -/
def Step.bind {α β : Type} : Step α → (α → St → Step β) → Step β
  | .ok a s, f => f a s
  | .fail e s, _ => .fail e s

/-- The call trace of a finished step (aborted or not). -/
def Step.callsOut {α : Type} : Step α → List Call
  | .ok _ s => s.calls
  | .fail _ s => s.calls

/-- The returned value, if the step did not abort. -/
def Step.value? {α : Type} : Step α → Option α
  | .ok a _ => some a
  | .fail _ _ => none

/-- The abort reason, if any. -/
def Step.failure? {α : Type} : Step α → Option Fail
  | .ok _ _ => none
  | .fail e _ => some e

/-- The `changed` flag of the reached state. -/
def Step.changedOut {α : Type} : Step α → Bool
  | .ok _ s => s.changed
  | .fail _ s => s.changed

/-- The `state` option of both modules: `choices=["present", "absent"]`. -/
inductive ParamState where
  | present
  | absent
deriving DecidableEq, Repr

/-- The declared parameters of the `cs_iso` module (its `argument_spec`),
with `none` for options whose default is `None`. -/
structure IsoParams where
  name : String
  url : Option String
  os_type : Option String
  zone : Option String
  iso_filter : String
  domain : Option String
  account : Option String
  project : Option String
  checksum : Option String
  is_ready : Bool
  bootable : Bool
  is_featured : Bool
  is_dynamically_scalable : Bool
  state : ParamState
deriving DecidableEq, Repr

/-- The declared parameters of the `cs_domain` module (its `argument_spec`).
`clean_up` is declared there but, as claim C10 states, never read again. -/
structure DomainParams where
  path : String
  state : ParamState
  network_domain : Option String
  clean_up : Bool
  poll_async : Bool
deriving DecidableEq, Repr

/-- `AnsibleCloudStack.get_zone`: the match test of its lookup loop,
`if zone in [ z["name"], z["id"] ]` — exact, case-sensitive comparison
against the name, and the id accepted directly. -/
def zoneFind (q : String) (zones : List Zone) : Option Zone :=
  zones.find? (fun z => q == z.name || q == z.id)

/-- `AnsibleCloudStack.get_zone` (read with `key="id"` by the callers; call
sites project `.id` from the returned record).  The `listZones` request is
issued before the parameter is inspected; with no `zone` parameter the first
returned zone is used (`zones["zone"][0]` raises KeyError on an empty falsy
response); otherwise the loop with `zoneFind` runs and a miss is fatal. -/
def getZone (p : IsoParams) (r : Remote) (s : St) : Step Zone :=
  match s.cache.zone with
  | some z => .ok z s
  | none =>
    let s := s.emit .listZones
    match p.zone with
    | none =>
      match r.zones with
      | [] => .fail (.pyError "KeyError: zone") s
      | z :: _ => .ok z { s with cache := { s.cache with zone := some z } }
    | some q =>
      match zoneFind q r.zones with
      | some z => .ok z { s with cache := { s.cache with zone := some z } }
      | none => .fail (.failJson ("zone " ++ q ++ " not found")) s

/-- The match test of the common `AnsibleCloudStack.get_domain` loop:
`if d["path"].lower() in [domain.lower(), "root/" + domain.lower(),
"root" + domain.lower()]`. -/
def domainCommonFind (q : String) (domains : List DomainRec) : Option DomainRec :=
  domains.find? (fun d =>
    pyLower d.path == pyLower q
      || pyLower d.path == "root/" ++ pyLower q
      || pyLower d.path == "root" ++ pyLower q)

/-- The common `AnsibleCloudStack.get_domain` (the version the ISO module
inherits): `None` parameter short-circuits to `None` with no remote call;
otherwise `listDomains(listall=True)` is issued and a miss is fatal. -/
def getDomainCommon (p : IsoParams) (r : Remote) (s : St) : Step (Option DomainRec) :=
  match s.cache.domain with
  | some d => .ok (some d) s
  | none =>
    match p.domain with
    | none => .ok none s
    | some q =>
      let s := s.emit .listDomains
      match domainCommonFind q r.domains with
      | some d => .ok (some d) { s with cache := { s.cache with domain := some d } }
      | none => .fail (.failJson ("Domain " ++ q ++ " not found")) s

/-- `AnsibleCloudStack.get_account`: `None` parameter short-circuits;
an account without a domain parameter is fatal; otherwise
`listAccounts(name=..., domainid=..., listall=True)` is issued (the name
filtering happens server side) and an empty response is fatal. -/
def getAccount (p : IsoParams) (r : Remote) (s : St) : Step (Option Account) :=
  match s.cache.account with
  | some a => .ok (some a) s
  | none =>
    match p.account with
    | none => .ok none s
    | some aq =>
      match p.domain with
      | none => .fail (.failJson "Account must be specified with Domain") s
      | some _ =>
        (getDomainCommon p r s).bind fun dom s =>
          let s := s.emit (.listAccounts aq (dom.map (fun d => d.id)))
          match r.accounts.filter (fun a => a.name == aq) with
          | [] => .fail (.failJson ("Account " ++ aq ++ " not found")) s
          | a :: _ => .ok (some a) { s with cache := { s.cache with account := some a } }

/-- The match test of the `AnsibleCloudStack.get_project` loop:
`if project.lower() in [ p["name"].lower(), p["id"] ]` — case-insensitive on
the name, and the id matched against the lowercased query. -/
def projectFind (q : String) (projects : List Project) : Option Project :=
  projects.find? (fun pr => pyLower q == pyLower pr.name || pyLower q == pr.id)

/-- `AnsibleCloudStack.get_project`: `None` parameter short-circuits;
otherwise the account and domain are resolved for the request arguments,
`listProjects` is issued and a miss is fatal. -/
def getProject (p : IsoParams) (r : Remote) (s : St) : Step (Option Project) :=
  match s.cache.project with
  | some pr => .ok (some pr) s
  | none =>
    match p.project with
    | none => .ok none s
    | some q =>
      (getAccount p r s).bind fun acct s =>
      (getDomainCommon p r s).bind fun dom s =>
        let s := s.emit (.listProjects (acct.map (fun a => a.name)) (dom.map (fun d => d.id)))
        match projectFind q r.projects with
        | some pr => .ok (some pr) { s with cache := { s.cache with project := some pr } }
        | none => .fail (.failJson ("project " ++ q ++ " not found")) s

/-- `AnsibleCloudStack.get_os_type` with `key="id"` (as both call sites use
it).  NOTE the cache-hit branch of the source reads
`return self._get_by_key(key, self.zone)` — the cached ZONE, not the cached
OS type; with no zone cached, `_get_by_key` then evaluates `key in None`,
a TypeError.  A `None` parameter short-circuits before any remote call;
otherwise `listOsTypes` is issued, the description or the id must match
exactly, and a miss is fatal. -/
def getOsTypeId (p : IsoParams) (r : Remote) (s : St) : Step (Option String) :=
  match s.cache.osType with
  | some _ =>
    match s.cache.zone with
    | some z => .ok (some z.id) s
    | none => .fail (.pyError "TypeError: argument of type NoneType is not iterable") s
  | none =>
    match p.os_type with
    | none => .ok none s
    | some q =>
      let s := s.emit .listOsTypes
      match r.ostypes.find? (fun o => q == o.description || q == o.id) with
      | some o => .ok (some o.id) { s with cache := { s.cache with osType := some o } }
      | none => .fail (.failJson ("OS type " ++ q ++ " not found")) s

/-- The deletion set computed by `AnsibleCloudStack._delete_tags`: for each
existing tag the source tests `existing_tag["key"] in tags` — a string
against the LIST OF TAG DICTS, which never matches — and on the (dead)
match branch would evaluate `tags[key]` where `key` is an undefined name
(NameError).  So every existing tag lands in the deletion set. -/
def tagsToDelete (existing desired : List Tag) : Except Fail (List Tag) :=
  match existing with
  | [] => .ok []
  | et :: rest =>
    if pyMem (.vstr et.key) (desired.map PyTagV.vtag) then
      .error (.pyError "NameError: name key is not defined")
    else
      (tagsToDelete rest desired).map (fun l => et :: l)

/-- `AnsibleCloudStack._delete_tags`: a nonempty deletion set marks the
result changed and, outside check mode, issues one `deleteTags` call. -/
def deleteTagsStep (rid rtype : String) (existing desired : List Tag)
    (check : Bool) (s : St) : Step Unit :=
  match tagsToDelete existing desired with
  | .error e => .fail e s
  | .ok [] => .ok () s
  | .ok (t :: ts) =>
    let s := s.mark
    if check then .ok () s
    else .ok () (s.emit (.deleteTags rid rtype (t :: ts)))

/-- `AnsibleCloudStack._create_tags`: the creation set is ALL desired tags,
rebuilt unconditionally (no comparison with the existing tags); nonempty
marks the result changed and, outside check mode, issues one `createTags`
call. -/
def createTagsStep (rid rtype : String) (desired : List Tag)
    (check : Bool) (s : St) : Step Unit :=
  match desired.map (fun t => ({ key := t.key, value := t.value } : Tag)) with
  | [] => .ok () s
  | t :: ts =>
    let s := s.mark
    if check then .ok () s
    else .ok () (s.emit (.createTags rid rtype (t :: ts)))

/-- The `listTags(resourceid=...)` response: the tags the remote currently
holds for the resource (an absent entry is the falsy empty response). -/
def lookupTags (store : List (String × List Tag)) (rid : String) : List Tag :=
  match store.find? (fun e => e.1 == rid) with
  | some e => e.2
  | none => []

/-- A taggable resource as `ensure_tags` sees it: its id and, when the
response dict has a `tags` key, its current tag list. -/
structure TagResource where
  id : String
  tags : Option (List Tag)
deriving DecidableEq, Repr

/-- `AnsibleCloudStack.ensure_tags(resource, resource_type)`: fatal without a
resource type; a resource without a `tags` key or a `tags` parameter of
`None` is left alone; otherwise `_delete_tags` then `_create_tags` run and
the tag list is re-read from the remote with `get_tags` (`listTags`). -/
def ensureTags (res : TagResource) (rtype : Option String)
    (tagsParam : Option (List Tag)) (r : Remote) (check : Bool) (s : St) :
    Step TagResource :=
  match rtype with
  | none => .fail (.failJson "Error: Missing resource or resource_type for tags.") s
  | some rt =>
    match res.tags with
    | none => .ok res s
    | some existing =>
      match tagsParam with
      | none => .ok res s
      | some desired =>
        (deleteTagsStep res.id rt existing desired check s).bind fun _ s =>
        (createTagsStep res.id rt desired check s).bind fun _ s =>
          let s := s.emit (.listTags res.id)
          .ok { res with tags := some (lookupTags r.tagStore res.id) } s

/-- The filter dict `cs_iso.get_iso` builds for `listIsos`: with a checksum
supplied the `name` key is never added (`if not checksum: args["name"] =
...`). -/
def isoLookupArgs (p : IsoParams) (domainid accountName projectid : Option String)
    (zoneid : String) : IsoListArgs :=
  { isready := p.is_ready
    isofilter := p.iso_filter
    domainid := domainid
    account := accountName
    projectid := projectid
    zoneid := zoneid
    name := if p.checksum.isSome then none else some p.name }

/-- The `listIsos` response: the server filters by exact name when a name
filter is sent, otherwise returns every ISO. -/
def listIsosResp (r : Remote) (a : IsoListArgs) : List Iso :=
  match a.name with
  | some n => r.isos.filter (fun i => i.name == n)
  | none => r.isos

/-- How `cs_iso.get_iso` picks from the response: without a checksum the
first listed ISO (`isos["iso"][0]`), with a checksum the first ISO whose
`checksum` field equals it (no match leaves `self.iso` as `None`). -/
def isoPick (checksum : Option String) (isos : List Iso) : Option Iso :=
  match checksum with
  | none => isos.head?
  | some c => isos.find? (fun i => i.checksum == c)

/-- `AnsibleCloudStackIso.get_iso`: resolves domain, account, project and
zone for the filter dict (in that order), issues `listIsos`, and caches a
hit in `self.iso`. -/
def getIso (p : IsoParams) (r : Remote) (s : St) : Step (Option Iso) :=
  match s.cache.iso with
  | some i => .ok (some i) s
  | none =>
    (getDomainCommon p r s).bind fun dom s =>
    (getAccount p r s).bind fun acct s =>
    (getProject p r s).bind fun proj s =>
    (getZone p r s).bind fun z s =>
      let a := isoLookupArgs p (dom.map (fun d => d.id)) (acct.map (fun x => x.name))
        (proj.map (fun x => x.id)) z.id
      let s := s.emit (.listIsos a)
      match isoPick p.checksum (listIsosResp r a) with
      | some i => .ok (some i) { s with cache := { s.cache with iso := some i } }
      | none => .ok none s

/-- The ISO record the remote creates for a `registerIso` request
(`res["iso"][0]`). -/
def registerResp (p : IsoParams) : Iso :=
  { id := "new-iso-id", name := p.name, checksum := p.checksum.getD "" }

/-- `AnsibleCloudStackIso.register_iso`: an existing ISO is returned
unchanged; otherwise the request arguments are resolved (zone, domain,
account, project, OS type), a bootable ISO without an OS type and then a
missing URL are fatal, the result is marked changed, and outside check mode
a `registerIso` call is issued (check mode returns `None` — the source never
assigns `iso` there). -/
def registerIso (p : IsoParams) (r : Remote) (check : Bool) (s : St) : Step (Option Iso) :=
  (getIso p r s).bind fun iso s =>
  match iso with
  | some i => .ok (some i) s
  | none =>
    (getZone p r s).bind fun z s =>
    (getDomainCommon p r s).bind fun dom s =>
    (getAccount p r s).bind fun acct s =>
    (getProject p r s).bind fun proj s =>
    (getOsTypeId p r s).bind fun ostypeid s =>
      if p.bootable && ostypeid.isNone then
        .fail (.failJson "OS type os_type is requried if bootable=true.") s
      else
        match p.url with
        | none => .fail (.failJson "URL is requried.") s
        | some u =>
          let s := s.mark
          if check then .ok none s
          else
            let args : RegisterIsoArgs :=
              { zoneid := z.id, domainid := dom.map (fun d => d.id),
                account := acct.map (fun x => x.name),
                projectid := proj.map (fun x => x.id),
                bootable := p.bootable, ostypeid := ostypeid,
                name := p.name, displaytext := p.name, checksum := p.checksum,
                isdynamicallyscalable := p.is_dynamically_scalable,
                isfeatured := p.is_featured, ispublic := none, url := u }
            let s := s.emit (.registerIso args)
            .ok (some (registerResp p)) s

/-- `AnsibleCloudStackIso.remove_iso`: no existing ISO means nothing to do;
otherwise the result is marked changed, project and zone are resolved for
the request arguments, and outside check mode a `deleteIso` call is
issued. -/
def removeIso (p : IsoParams) (r : Remote) (check : Bool) (s : St) : Step (Option Iso) :=
  (getIso p r s).bind fun iso s =>
  match iso with
  | none => .ok none s
  | some i =>
    let s := s.mark
    (getProject p r s).bind fun proj s =>
    (getZone p r s).bind fun z s =>
      if check then .ok (some i) s
      else .ok (some i) (s.emit (.deleteIso i.id (proj.map (fun x => x.id)) z.id))

/-- The output mapping of the ISO module (`get_result`, restricted to the
fields the `Iso` model carries). -/
structure IsoResult where
  changed : Bool
  name : Option String
  checksum : Option String
deriving DecidableEq, Repr

/-- `AnsibleCloudStackIso.get_result`: copies the fields present on the
returned ISO next to the `changed` flag. -/
def isoGetResult (changed : Bool) (iso : Option Iso) : IsoResult :=
  match iso with
  | none => { changed := changed, name := none, checksum := none }
  | some i => { changed := changed, name := some i.name, checksum := some i.checksum }

/-- `cs_iso.main`: `state=absent` removes, anything else registers; the
result mapping is built from the returned ISO. -/
def isoModuleRun (p : IsoParams) (r : Remote) (check : Bool) : Step IsoResult :=
  (match p.state with
   | .absent => removeIso p r check St.init
   | .present => registerIso p r check St.init).bind fun iso s =>
    .ok (isoGetResult s.changed iso) s

/-- The value the body of `AnsibleCloudStackDomain.get_name` computes:
`self.module.params.get("path").split("/")[-1:]` — note the `[-1:]` slice,
so the body yields a one-element LIST, not the final path component itself.
(The method is moreover defined without a `self` parameter, so calling
`self.get_name()` raises TypeError before this body ever runs.) -/
def getNameValue (path : String) : List String :=
  let parts := pySplitSlash path
  parts.drop (parts.length - 1)

/-- The parent path `AnsibleCloudStackDomain.get_parent_domain` derives:
`"/".join(path.split("/")[:-1])`. -/
def parentPathOf (path : String) : String :=
  joinSlash (pySplitSlash path).dropLast

/-- The keys of the args dict `_create_domain` would build — note the
misspelled `parrentdomainid` (the CloudStack API expects
`parentdomainid`). -/
def createDomainArgsKeys : List String :=
  ["name", "parrentdomainid", "networkdomain"]

/-- The path normalization of `_get_domain_internal` applied to the already
lowercased query: queries starting with `/` (but not `/root/`) get `root`
prepended, queries not starting with `root/` get `root/` prepended. -/
def domainQueryNormLow (p : String) : String :=
  if pyStartsWith p "/" && !(pyStartsWith p "/root/") then "root" ++ p
  else if !(pyStartsWith p "root/") then "root/" ++ p
  else p

/-- The full query normalization of `_get_domain_internal`:
`path = path.lower()` then the prefix fixups. -/
def domainQueryNormalize (path : String) : String :=
  domainQueryNormLow (pyLower path)

/-- The lookup loop of `_get_domain_internal`:
`if path.lower() == d["path"].lower(): return d`. -/
def domainLookup (path : String) (domains : List DomainRec) : Option DomainRec :=
  domains.find? (fun d => pyLower (domainQueryNormalize path) == pyLower d.path)

/-- `AnsibleCloudStackDomain._get_domain_internal(path)`: a path ending in
`/` is fatal, otherwise the query is normalized, `listDomains(listall=True)`
is issued, and the loop returns the matching domain or falls through to
`None`. -/
def getDomainInternal (path : String) (r : Remote) (s : St) : Step (Option DomainRec) :=
  if pyEndsWith path "/" then .fail (.failJson "Path must not end with /") s
  else
    let s := s.emit .listDomains
    .ok (domainLookup path r.domains) s

/-- `AnsibleCloudStackDomain.get_domain`: `if not self.domain:` re-runs the
internal lookup on the `path` parameter; only a hit is cached. -/
def getDomainDom (p : DomainParams) (r : Remote) (s : St) : Step (Option DomainRec) :=
  match s.cache.domain with
  | some d => .ok (some d) s
  | none =>
    (getDomainInternal p.path r s).bind fun d s =>
      match d with
      | some dd => .ok (some dd) { s with cache := { s.cache with domain := some dd } }
      | none => .ok none s

/-- `AnsibleCloudStackDomain._create_domain`: sets `changed`, then builds the
args dict starting with `args["name"] = self.get_name()`.  `get_name` is
defined without a `self` parameter, so that call raises
`TypeError: get_name() takes no arguments (1 given)` — in live AND check
mode — before any `createDomain` request can be issued. -/
def createDomainStep (s : St) : Step (Option DomainRec) :=
  let s := s.mark
  .fail (.pyError "TypeError: get_name() takes no arguments (1 given)") s

/-- The found domain record as the `current_dict` of `has_changed`:
the response dict with its optional keys. -/
def domainToDict (d : DomainRec) : List (String × PyVal) :=
  [("id", .pstr d.id), ("name", .pstr d.name), ("path", .pstr d.path)]
    ++ (match d.networkdomain with
        | some nd => [("networkdomain", PyVal.pstr nd)]
        | none => [])
    ++ (match d.parentdomainname with
        | some pd => [("parentdomainname", PyVal.pstr pd)]
        | none => [])
    ++ (match d.state with
        | some st => [("state", PyVal.pstr st)]
        | none => [])

/-- `AnsibleCloudStackDomain._update_domain`, modelled from its evident token
stream (as written the method does not parse: the `if` line lacks its colon
and the final `return` is mis-indented — the structural defect the spec
notes): the args dict carries only `id` and `networkdomain`, `_has_changed`
compares it against the found domain, a difference marks `changed` and,
outside check mode, issues an `updateDomain` call. -/
def updateDomainStep (p : DomainParams) (check : Bool) (dom : DomainRec) (s : St) :
    Step (Option DomainRec) :=
  let want : List (String × Option PyVal) :=
    [("id", some (.pstr dom.id)), ("networkdomain", p.network_domain.map PyVal.pstr)]
  match hasChanged want (domainToDict dom) none with
  | .error e => .fail e s
  | .ok false => .ok (some dom) s
  | .ok true =>
    let s := s.mark
    if check then .ok (some dom) s
    else
      let s := s.emit (.updateDomain dom.id p.network_domain)
      .ok (some { dom with networkdomain := p.network_domain }) s

/-- `AnsibleCloudStackDomain.present_domain`: looks the domain up, creates or
updates — and DISCARDS the branch result, returning the original lookup
result (`self._create_domain(domain)` / `self._update_domain(domain)` are
bare statements; `return domain` returns the pre-existing value). -/
def presentDomain (p : DomainParams) (r : Remote) (check : Bool) (s : St) :
    Step (Option DomainRec) :=
  (getDomainDom p r s).bind fun dom s =>
  match dom with
  | none => (createDomainStep s).bind fun _ s => .ok none s
  | some d => (updateDomainStep p check d s).bind fun _ s => .ok (some d) s

/-- `AnsibleCloudStackDomain.absent_domain`: no match means nothing to do;
a match marks `changed` and, outside check mode, issues `deleteDomain` and
then evaluates `if "errortext" in account:` — `account` is an undefined
name there, so every live deletion crashes with NameError right after the
delete request (the `poll_async` handling below it is unreachable). -/
def absentDomain (p : DomainParams) (r : Remote) (check : Bool) (s : St) :
    Step (Option DomainRec) :=
  (getDomainDom p r s).bind fun dom s =>
  match dom with
  | none => .ok none s
  | some d =>
    let s := s.mark
    if check then .ok (some d) s
    else
      let s := s.emit (.deleteDomain d.id)
      .fail (.pyError "NameError: name account is not defined") s

/-- The output mapping of the domain module (`get_result`): `changed` plus
the domain fields copied when present on the returned record. -/
structure DomainResult where
  changed : Bool
  name : Option String
  path : Option String
  parent_domain : Option String
  state : Option String
  network_domain : Option String
deriving DecidableEq, Repr

/-- `AnsibleCloudStackDomain.get_result`. -/
def domainGetResult (changed : Bool) (dom : Option DomainRec) : DomainResult :=
  match dom with
  | none =>
    { changed := changed, name := none, path := none, parent_domain := none,
      state := none, network_domain := none }
  | some d =>
    { changed := changed, name := some d.name, path := some d.path,
      parent_domain := d.parentdomainname, state := d.state,
      network_domain := d.networkdomain }

/-- `cs_domain.main`: `state=absent` removes, anything else ensures
presence; the result mapping is built from the returned domain.  The
`clean_up` parameter is declared in the argument spec but read nowhere. -/
def domainModuleRun (p : DomainParams) (r : Remote) (check : Bool) : Step DomainResult :=
  (match p.state with
   | .absent => absentDomain p r check St.init
   | .present => presentDomain p r check St.init).bind fun dom s =>
    .ok (domainGetResult s.changed dom) s

/-- A baseline parameter set for the ISO module: the required `name` plus the
declared defaults (`iso_filter="self"`, `is_ready=false`, `bootable=true`,
`state=present`, all optional selectors unset). -/
def isoDefaults : IsoParams :=
  { name := "Debian 7", url := none, os_type := none, zone := none,
    iso_filter := "self", domain := none, account := none, project := none,
    checksum := none, is_ready := false, bootable := true, is_featured := false,
    is_dynamically_scalable := false, state := .present }

/-- A remote with nothing on it. -/
def emptyRemote : Remote :=
  { zones := [], domains := [], accounts := [], projects := [], ostypes := [],
    isos := [], tagStore := [] }

/-- Concrete input for claim C2: register a bootable ISO without `os_type`;
the remote has one zone and no ISOs. -/
def c2Params : IsoParams :=
  { isoDefaults with url := some "http://mirror.example.com/d.iso" }

/-- The remote for claim C2. -/
def c2Remote : Remote :=
  { emptyRemote with zones := [{ name := "zone-a", id := "z-1" }] }

/-- Concrete input for claim C3: an `os_type` parameter that resolves. -/
def c3Params : IsoParams :=
  { isoDefaults with os_type := some "Debian 7" }

/-- The remote for claim C3: one matching OS type. -/
def c3Remote : Remote :=
  { emptyRemote with
    zones := [{ name := "zone-a", id := "z-1" }]
    ostypes := [{ description := "Debian 7", id := "os-1" }] }

/-- Invocation state for claim C3 after the zone was resolved earlier in the
same invocation (as `get_iso` does before `register_iso` resolves the OS
type). -/
def c3StateAfterZone : St :=
  { cache := { Cache.empty with zone := some { name := "zone-a", id := "z-1" } },
    changed := false, calls := [] }

/-- The zone list for claim C4: one zone whose name has an upper-case
letter. -/
def c4Zones : List Zone := [{ name := "Zurich", id := "z-1" }]

/-- The domain list for claim C4. -/
def c4Domains : List DomainRec :=
  [{ id := "d-7", name := "Sales", path := "ROOT/Sales", networkdomain := none,
     parentdomainname := some "ROOT", state := some "Active" }]

/-- Concrete input for claim C5: desired domain path `/ROOT/customers`,
`state=present`. -/
def c5Params : DomainParams :=
  { path := "/ROOT/customers", state := .present, network_domain := none,
    clean_up := false, poll_async := true }

/-- The ROOT domain record. -/
def rootDomRec : DomainRec :=
  { id := "d-root", name := "ROOT", path := "ROOT", networkdomain := none,
    parentdomainname := none, state := some "Active" }

/-- The remote for claim C5: only the ROOT domain exists, so the desired
path has no match. -/
def c5Remote : Remote :=
  { emptyRemote with domains := [rootDomRec] }

/-- Concrete input for claim C6: `state=absent` on an existing domain. -/
def c6Params : DomainParams :=
  { path := "ROOT/Sales", state := .absent, network_domain := none,
    clean_up := false, poll_async := true }

/-- The existing Sales domain record for claim C6. -/
def salesDomRec : DomainRec :=
  { id := "d-42", name := "Sales", path := "ROOT/Sales", networkdomain := none,
    parentdomainname := some "ROOT", state := some "Active" }

/-- The remote for claim C6: the matching domain exists. -/
def c6Remote : Remote :=
  { emptyRemote with domains := [salesDomRec] }

/-- A found domain record for claim C7 with a network domain set. -/
def c7Dom : DomainRec :=
  { id := "d-9", name := "customers", path := "ROOT/customers",
    networkdomain := some "old.com", parentdomainname := some "ROOT",
    state := some "Active" }

/-- Concrete input for claim C8: a checksum is supplied. -/
def c8Params : IsoParams :=
  { isoDefaults with checksum := some "0b31bccccb048d20b551f70830bb7ad0" }

/-- The existing ISO record for claim C8. -/
def c8Iso : Iso :=
  { id := "iso-1", name := "Debian 7", checksum := "0b31bccccb048d20b551f70830bb7ad0" }

/-- The remote for claim C8: one zone, one ISO with the matching checksum. -/
def c8Remote : Remote :=
  { emptyRemote with
    zones := [{ name := "zone-a", id := "z-1" }]
    isos := [c8Iso] }

/-- Domain-module parameters desiring network domain `nd` (claim C7). -/
def c7ParamsND (nd : String) : DomainParams :=
  { path := "ROOT/customers", state := ParamState.present,
    network_domain := some nd, clean_up := false, poll_async := true }

/-- Concrete input for claim C9: `state=absent` with a path matching no
domain. -/
def c9Params : DomainParams :=
  { path := "ROOT/nosuch", state := .absent, network_domain := none,
    clean_up := false, poll_async := true }

/-! ## Theorems -/

/-- In Python a string never equals a tag dict, so the membership test of
`_delete_tags` can never fire. -/
theorem pyMem_str_vtags (k : String) (l : List Tag) :
    pyMem (PyTagV.vstr k) (l.map PyTagV.vtag) = false := by
  induction l with
  | nil => rfl
  | cons t ts ih =>
    simp only [pyMem, List.map_cons, List.any_cons] at ih ⊢
    simp [pyTagVEq, ih]

/-- Consequently the deletion set of `_delete_tags` is the WHOLE existing
tag list, whatever the desired tags are (and its dead NameError branch is
indeed dead). -/
theorem tagsToDelete_all (existing desired : List Tag) :
    tagsToDelete existing desired = Except.ok existing := by
  induction existing with
  | nil => rfl
  | cons t ts ih =>
    simp [tagsToDelete, pyMem_str_vtags, ih, Except.map]

/-- The creation set of `_create_tags` rebuilds each tag unchanged. -/
theorem tagCopyMap (l : List Tag) :
    l.map (fun t => ({ key := t.key, value := t.value } : Tag)) = l := by
  induction l with
  | nil => rfl
  | cons t ts ih => cases t; simp [ih]

/-- C1 counterexample: replaying `ensure_tags` with the nonempty tag list
T = [(env, prod)] on a resource that already carries exactly T (the state
right after a first `ensure_tags(resource, T)` with no external drift)
issues BOTH a tag-removal call and a tag-addition call and sets the changed
flag — the second call is not a no-op, refuting the claim as stated. -/
theorem c1_counterexample :
    ensureTags { id := "r-1", tags := some [{ key := "env", value := "prod" }] }
        (some "UserVm") (some [{ key := "env", value := "prod" }])
        { emptyRemote with tagStore := [("r-1", [{ key := "env", value := "prod" }])] }
        false St.init
      = Step.ok { id := "r-1", tags := some [{ key := "env", value := "prod" }] }
          { cache := Cache.empty, changed := true,
            calls := [Call.deleteTags "r-1" "UserVm" [{ key := "env", value := "prod" }],
                      Call.createTags "r-1" "UserVm" [{ key := "env", value := "prod" }],
                      Call.listTags "r-1"] } := by
  decide

/-- C1 (amended): an immediately repeated `ensure_tags(resource, T)` with no
external drift is a no-op only when T is empty — then no removal call, no
addition call, and the changed flag stays false (only the read-only
`listTags` refresh is issued).  For any nonempty T the repeated live call
deletes ALL existing tags and re-adds ALL desired tags, issuing both calls
and setting changed. -/
theorem c1_amended (rid rt : String) (r : Remote) (check : Bool) (t : Tag) (ts : List Tag) :
    (ensureTags { id := rid, tags := some [] } (some rt) (some []) r check St.init
      = Step.ok { id := rid, tags := some (lookupTags r.tagStore rid) }
          { cache := Cache.empty, changed := false, calls := [Call.listTags rid] })
    ∧ (ensureTags { id := rid, tags := some (t :: ts) } (some rt) (some (t :: ts)) r false St.init
      = Step.ok { id := rid, tags := some (lookupTags r.tagStore rid) }
          { cache := Cache.empty, changed := true,
            calls := [Call.deleteTags rid rt (t :: ts),
                      Call.createTags rid rt (t :: ts),
                      Call.listTags rid] }) := by
  constructor
  · rfl
  · simp [ensureTags, deleteTagsStep, createTagsStep, tagsToDelete_all, tagCopyMap,
      Step.bind, St.emit, St.mark, St.init, Cache.empty]

/-- C2 counterexample: registering a bootable ISO without `os_type` does
fail with the message naming `os_type`, but only AFTER remote API calls were
issued — the trace up to the failure already holds the `listZones` and
`listIsos` lookups, refuting "before any remote API call". -/
theorem c2_counterexample :
    (isoModuleRun c2Params c2Remote false).failure?
        = some (Fail.failJson "OS type os_type is requried if bootable=true.")
    ∧ (isoModuleRun c2Params c2Remote false).callsOut
        = [Call.listZones,
           Call.listIsos { isready := false, isofilter := "self", domainid := none,
                           account := none, projectid := none, zoneid := "z-1",
                           name := some "Debian 7" }]
    ∧ (isoModuleRun c2Params c2Remote false).callsOut ≠ [] := by
  decide

/-- C2 (amended): with `state=present`, `bootable=true`, no `os_type` and no
existing ISO matching the lookup, the invocation fails with the
missing-required-field message naming `os_type` before any MUTATING remote
call is issued; the read-only `listZones` and `listIsos` lookups do come
first. -/
theorem c2_amended (p : IsoParams) (r : Remote) (check : Bool) (z : Zone) (zs : List Zone)
    (hstate : p.state = ParamState.present)
    (hboot : p.bootable = true) (hos : p.os_type = none) (hzone : p.zone = none)
    (hdom : p.domain = none) (hacct : p.account = none) (hproj : p.project = none)
    (hck : p.checksum = none) (hzones : r.zones = z :: zs)
    (hmiss : r.isos.filter (fun i => i.name == p.name) = []) :
    (isoModuleRun p r check).failure?
        = some (Fail.failJson "OS type os_type is requried if bootable=true.")
    ∧ ∀ c ∈ (isoModuleRun p r check).callsOut, c.isMutating = false := by
  obtain ⟨nm, u, ot, zn, flt, dm, ac, pj, ck, ir, bt, ft, dy, stt⟩ := p
  obtain ⟨rz, rd, ra, rp, ro, ri, rt⟩ := r
  simp only [IsoParams.state] at hstate
  simp only [IsoParams.bootable] at hboot
  simp only [IsoParams.os_type] at hos
  simp only [IsoParams.zone] at hzone
  simp only [IsoParams.domain] at hdom
  simp only [IsoParams.account] at hacct
  simp only [IsoParams.project] at hproj
  simp only [IsoParams.checksum] at hck
  simp only [Remote.zones] at hzones
  simp only [Remote.isos, IsoParams.name] at hmiss
  subst hstate hboot hos hzone hdom hacct hproj hck hzones
  simp [isoModuleRun, registerIso, getIso, getDomainCommon, getAccount, getProject,
    getZone, getOsTypeId, isoLookupArgs, listIsosResp, isoPick, hmiss,
    St.init, Cache.empty, St.emit, Step.bind, Step.failure?, Step.callsOut,
    Call.isMutating]

/-- C2 witness: the amended statement at the concrete C2 input. -/
theorem c2_witness :
    c2Params.bootable = true ∧ c2Params.os_type = none
    ∧ ((isoModuleRun c2Params c2Remote false).failure?
        = some (Fail.failJson "OS type os_type is requried if bootable=true.")
      ∧ ∀ c ∈ (isoModuleRun c2Params c2Remote false).callsOut, c.isMutating = false) :=
  ⟨rfl, rfl,
    c2_amended c2Params c2Remote false { name := "zone-a", id := "z-1" } []
      rfl rfl rfl rfl rfl rfl rfl rfl rfl rfl⟩

/-- C3: within one invocation the SECOND call of the os-type resolver does
not return the value of the first call: the cache-hit branch of
`get_os_type` reads `self.zone` instead of `self.os_type`, so once the zone
was resolved (id `z-1`) and the OS type was resolved (id `os-1`), calling
the resolver again yields the zone id `z-1` — not `os-1` — refuting the
claim that a second call returns the same entity value. -/
theorem c3_bug :
    (getOsTypeId c3Params c3Remote c3StateAfterZone).value? = some (some "os-1")
    ∧ ((getOsTypeId c3Params c3Remote c3StateAfterZone).bind
        (fun _ s => getOsTypeId c3Params c3Remote s)).value? = some (some "z-1")
    ∧ (some "os-1" : Option String) ≠ some "z-1" := by
  decide

/-- C4 counterexample: lookup is NOT case-insensitive for every entity kind.
The zone resolver matches the name exactly: querying `zurich` against a zone
named `Zurich` aborts with "not found", while `Zurich` resolves — so the
claimed universal case-insensitivity fails at the zone kind. -/
theorem c4_counterexample :
    (getZone { isoDefaults with zone := some "zurich" }
        { emptyRemote with zones := c4Zones } St.init).failure?
      = some (Fail.failJson "zone zurich not found")
    ∧ (getZone { isoDefaults with zone := some "Zurich" }
        { emptyRemote with zones := c4Zones } St.init).value?
      = some { name := "Zurich", id := "z-1" } := by
  decide

/-- C4 (amended): the DOMAIN natural-key lookup is case-insensitive — any
two queried paths equal up to case resolve to the same resource, in
particular `ROOT/Sales` and `root/sales` — but name lookup is
case-sensitive for the zone (and OS type) kinds, which instead accept the
opaque id directly. -/
theorem c4_amended (pq qq : String) (domains : List DomainRec)
    (h : pyLower pq = pyLower qq) :
    domainLookup pq domains = domainLookup qq domains := by
  simp [domainLookup, domainQueryNormalize, h]

/-- C4 witness: the amended statement at the two paths named by the spec. -/
theorem c4_witness :
    pyLower "ROOT/Sales" = pyLower "root/sales"
    ∧ domainLookup "ROOT/Sales" c4Domains = domainLookup "root/sales" c4Domains :=
  ⟨by decide, c4_amended "ROOT/Sales" "root/sales" c4Domains (by decide)⟩

/-- C5: reconciling the absent domain path `/ROOT/customers` never issues
the claimed create call.  The invocation crashes with TypeError (the
`get_name` method is defined without `self`) right after the lookup, so no
`createDomain` request appears in the trace; moreover the `get_name` body
itself would return the one-element LIST `[customers]`, not the string, and
the args dict spells the parent-domain key `parrentdomainid`, not the API
field `parentdomainid`. -/
theorem c5_bug :
    (domainModuleRun c5Params c5Remote false).failure?
        = some (Fail.pyError "TypeError: get_name() takes no arguments (1 given)")
    ∧ (∀ c ∈ (domainModuleRun c5Params c5Remote false).callsOut, c ≠ Call.createDomain)
    ∧ getNameValue "/ROOT/customers" = ["customers"]
    ∧ "parrentdomainid" ∈ createDomainArgsKeys
    ∧ "parentdomainid" ∉ createDomainArgsKeys := by
  decide

/-- C6: dry-run does NOT always report the same changed value a live run
would report.  For `state=absent` on an existing domain, check mode reports
`changed=true` after the read-only lookup, while the live run issues
`deleteDomain` and then crashes with NameError (the source tests
`"errortext" in account` where `account` is undefined), reporting
nothing. -/
theorem c6_bug :
    (domainModuleRun c6Params c6Remote true).value?
        = some { changed := true, name := some "Sales", path := some "ROOT/Sales",
                 parent_domain := some "ROOT", state := some "Active",
                 network_domain := none }
    ∧ (domainModuleRun c6Params c6Remote true).callsOut = [Call.listDomains]
    ∧ (domainModuleRun c6Params c6Remote false).failure?
        = some (Fail.pyError "NameError: name account is not defined")
    ∧ (domainModuleRun c6Params c6Remote false).callsOut
        = [Call.listDomains, Call.deleteDomain "d-42"] := by
  decide

/-- C7 counterexample: the diff does NOT compare numerically whenever either
side is numeric.  Desired value the string `00`, current value the integer
`0`: numerically equal (`int("00") = 0`), yet `has_changed` reports a
difference — so an update call would be issued where the claim says no
remote call is made and changed stays false. -/
theorem c7_counterexample :
    hasChanged [("networkdomain", some (PyVal.pstr "00"))]
        [("networkdomain", PyVal.pint 0)] none = Except.ok true
    ∧ pyStrToInt "00" = some 0 :=
  ⟨rfl, rfl⟩

/-- C7 (amended): when the resource is found, the diff coerces the current
value to the DESIRED value type — numeric comparison when the desired value
is an int, plain string comparison when it is a string — and the domain
update path behaves as claimed under that comparison: equal network domains
issue no call and leave changed false; differing ones mark changed, and a
live run issues one `updateDomain` call carrying only the id and the
mutable `networkdomain` field. -/
theorem c7_amended (dom : DomainRec) (cur nd : String) (check : Bool)
    (h : dom.networkdomain = some cur) :
    ((nd = cur) →
      updateDomainStep (c7ParamsND nd) check dom St.init
        = Step.ok (some dom) St.init)
    ∧ ((nd ≠ cur) →
      updateDomainStep (c7ParamsND nd) true dom St.init
        = Step.ok (some dom) { St.init with changed := true })
    ∧ ((nd ≠ cur) →
      updateDomainStep (c7ParamsND nd) false dom St.init
        = Step.ok (some { dom with networkdomain := some nd })
            { St.init with
              changed := true
              calls := [Call.updateDomain dom.id (some nd)] }) := by
  have hdiff : hasChanged
      [("id", some (PyVal.pstr dom.id)), ("networkdomain", some (PyVal.pstr nd))]
      (domainToDict dom) none = Except.ok (nd != cur) := by
    by_cases hc : nd = cur <;>
      simp [hasChanged, keyBlocked, lookupPy, domainToDict, h, pyToStr, hc, bne]
  refine ⟨fun hc => ?_, fun hc => ?_, fun hc => ?_⟩
  · subst hc
    simp only [updateDomainStep, c7ParamsND, Option.map_some']
    rw [hdiff]
    simp [St.init]
  · have hb : (nd != cur) = true := by simp [hc]
    simp [updateDomainStep, c7ParamsND, hdiff, hb, St.init, St.mark]
  · have hb : (nd != cur) = true := by simp [hc]
    simp [updateDomainStep, c7ParamsND, hdiff, hb, St.init, St.mark, St.emit]

/-- C7 witness: the amended statement at a found domain with network domain
`old.com` and desired network domain `example.com`. -/
theorem c7_witness :
    c7Dom.networkdomain = some "old.com"
    ∧ ((("example.com" : String) = "old.com") →
        updateDomainStep (c7ParamsND "example.com") false c7Dom St.init
          = Step.ok (some c7Dom) St.init)
    ∧ ((("example.com" : String) ≠ "old.com") →
        updateDomainStep (c7ParamsND "example.com") true c7Dom St.init
          = Step.ok (some c7Dom) { St.init with changed := true })
    ∧ ((("example.com" : String) ≠ "old.com") →
        updateDomainStep (c7ParamsND "example.com") false c7Dom St.init
          = Step.ok (some { c7Dom with networkdomain := some "example.com" })
              { St.init with
                changed := true
                calls := [Call.updateDomain c7Dom.id (some "example.com")] }) :=
  ⟨rfl, c7_amended c7Dom "old.com" "example.com" false rfl⟩

/-- C8: with a checksum supplied, the filter dict sent to `listIsos` carries
no `name` key at all, the trace of the lookup is exactly the read-only
`listZones` and `listIsos` calls, and the returned ISO is the first listed
ISO whose checksum equals the supplied one. -/
theorem c8_theorem (p : IsoParams) (r : Remote) (c : String) (z : Zone) (zs : List Zone)
    (hck : p.checksum = some c) (hdom : p.domain = none) (hacct : p.account = none)
    (hproj : p.project = none) (hzone : p.zone = none) (hzones : r.zones = z :: zs) :
    (isoLookupArgs p none none none z.id).name = none
    ∧ (getIso p r St.init).callsOut
        = [Call.listZones, Call.listIsos (isoLookupArgs p none none none z.id)]
    ∧ (getIso p r St.init).value?
        = some (r.isos.find? (fun i => i.checksum == c)) := by
  obtain ⟨nm, u, ot, zn, flt, dm, ac, pj, ck, ir, bt, ft, dy, stt⟩ := p
  obtain ⟨rz, rd, ra, rp, ro, ri, rt⟩ := r
  simp only [IsoParams.checksum] at hck
  simp only [IsoParams.domain] at hdom
  simp only [IsoParams.account] at hacct
  simp only [IsoParams.project] at hproj
  simp only [IsoParams.zone] at hzone
  simp only [Remote.zones] at hzones
  subst hck hdom hacct hproj hzone hzones
  refine ⟨rfl, ?_, ?_⟩ <;>
  · simp only [getIso, getDomainCommon, getAccount, getProject, getZone,
      isoLookupArgs, listIsosResp, isoPick, St.init, Cache.empty, St.emit, Step.bind]
    cases hfind : ri.find? (fun i => i.checksum == c) <;>
      simp [Step.callsOut, Step.value?, hfind]

/-- C8 witness: the statement at the concrete C8 input (checksum supplied,
one matching ISO on the remote). -/
theorem c8_witness :
    c8Params.checksum = some "0b31bccccb048d20b551f70830bb7ad0"
    ∧ ((isoLookupArgs c8Params none none none "z-1").name = none
      ∧ (getIso c8Params c8Remote St.init).callsOut
          = [Call.listZones, Call.listIsos (isoLookupArgs c8Params none none none "z-1")]
      ∧ (getIso c8Params c8Remote St.init).value?
          = some (c8Remote.isos.find?
              (fun i => i.checksum == "0b31bccccb048d20b551f70830bb7ad0"))) :=
  ⟨rfl, c8_theorem c8Params c8Remote "0b31bccccb048d20b551f70830bb7ad0"
    { name := "zone-a", id := "z-1" } [] rfl rfl rfl rfl rfl rfl⟩

/-- C9 counterexample: `state=absent` with no matching domain DOES issue a
remote call — the `listDomains` lookup — so "no call is issued" fails as
stated (it is the only call, and it is read-only). -/
theorem c9_counterexample :
    (domainModuleRun c9Params emptyRemote false).callsOut = [Call.listDomains]
    ∧ (domainModuleRun c9Params emptyRemote false).callsOut ≠ [] := by
  decide

/-- C9 (amended): `state=absent` with a path matching no existing domain
issues no MUTATING call (its trace is exactly the read-only `listDomains`
lookup), reports `changed=false`, and the result carries no domain
fields. -/
theorem c9_amended (p : DomainParams) (r : Remote) (check : Bool)
    (hstate : p.state = ParamState.absent)
    (hslash : pyEndsWith p.path "/" = false)
    (hmiss : domainLookup p.path r.domains = none) :
    domainModuleRun p r check
      = Step.ok { changed := false, name := none, path := none, parent_domain := none,
                  state := none, network_domain := none }
          { cache := Cache.empty, changed := false, calls := [Call.listDomains] } := by
  simp [domainModuleRun, hstate, absentDomain, getDomainDom, getDomainInternal,
    hslash, hmiss, St.init, St.emit, Step.bind, domainGetResult, Cache.empty]

/-- C9 witness: the amended statement at the concrete C9 input. -/
theorem c9_witness :
    c9Params.state = ParamState.absent
    ∧ pyEndsWith c9Params.path "/" = false
    ∧ domainLookup c9Params.path emptyRemote.domains = none
    ∧ domainModuleRun c9Params emptyRemote false
        = Step.ok { changed := false, name := none, path := none, parent_domain := none,
                    state := none, network_domain := none }
            { cache := Cache.empty, changed := false, calls := [Call.listDomains] } :=
  ⟨rfl, by decide, by decide,
    c9_amended c9Params emptyRemote false rfl (by decide) (by decide)⟩

/-- C10: the `clean_up` parameter has no effect at all — two domain-module
invocations identical except for its value issue the same remote calls and
produce the same outcome and result, in every mode and against every
remote state: the parameter is declared in the argument spec but read by no
operation, including the `state=absent` delete path its documentation says
it affects. -/
theorem c10_theorem (p : DomainParams) (r : Remote) (check : Bool) (b1 b2 : Bool) :
    domainModuleRun { p with clean_up := b1 } r check
      = domainModuleRun { p with clean_up := b2 } r check := rfl

end CsAcs
